import Mathlib

/-!
Shallow embedding of the Kernel Universe simulation engine
(`kernel_universe/simulation.py` and `kernel_universe/config.py`).

Modelling conventions:
* Machine floats are modelled as exact rationals (`ℚ`).
* `numpy` grids are total functions `ZMod N → ZMod N → ℚ`, indexed `[row, col]`
  (`row = y`, `col = x`); `ZMod N` gives the wrap-around (`% N`) index
  arithmetic of `np.roll`, `np.pad(mode = wrap)` and the `% GRID_SIZE`
  position arithmetic for free.
* The grid size is a section parameter `N` (with `NeZero N`) rather than a
  mutable configuration field: Python types cannot depend on `config.GRID_SIZE`
  changing either (the arrays are allocated once), so all grids of one
  simulation share one `N`.
* `np.random.RandomState` is abstracted as a seeded deterministic stream:
  an index (`pos`) into two arbitrary value tables, `u : ℕ → ℚ` for
  `random()` draws and `iv : ℕ → ℕ` for `randint` draws.  Every draw
  consumes indices in program order, so "same seed ⇒ same sequence of draws
  for identical call order" holds by construction, and any concrete sequence
  the real generator can produce corresponds to some choice of `u`/`iv`.
  `randint lo hi` returns `lo + iv pos % (hi - lo)`, which lies in
  `[lo, hi)` exactly as numpy's does.
* Python's unbounded `while True` retry loop in `initialize_cores` is given
  explicit fuel (`N * N` retries per core); when fuel runs out the last drawn
  position is accepted.  All concrete instantiations below use streams where
  no retry (or only finitely many) happens, so the fuel path is never taken.
* The `for core in self.cores` loop in `step` is modelled index by index,
  exactly like CPython's list iterator: the index is checked against the
  *current* length, so cores appended by `spawn_new_cores` during the loop
  are themselves visited.  The loop gets fuel
  `cores.length * (1 + SPAWN_S) + 1`, which covers every terminating run in
  which freshly spawned cores do not bloom on their birth tick (they cannot,
  whenever `TAU_TEMP ≥ 2`, since their exposure count is at most 1).
-/

namespace KU

/-- A value that can be bound to a configuration attribute: `config.py`
holds ints, floats, strings and one 3×3 array, and the module's attribute
table additionally binds opaque objects (the imported `numpy` module, the
import-machinery dunder values), modelled as tagged strings. -/
inductive ConfigValue where
  | nat (n : ℕ)
  | rat (q : ℚ)
  | str (s : String)
  | arr (k : Fin 3 → Fin 3 → ℚ)

/-- The state of the `kernel_universe/config.py` module: its 19 assigned
constants as typed fields, plus `moduleAttrs`, the rest of the runtime
attribute table of the loaded module — the import-machinery dunders and
the `np` binding created by `import numpy as np`.  `hasattr(config, ·)` is
true exactly for the typed field names and the `moduleAttrs` keys, and
`setattr` can rebind any of them. -/
structure Config where
  GRID_SIZE : ℕ
  DAY_TICKS : ℕ
  C_THRESH : ℚ
  EMIT_FRACTION : ℚ
  KERNEL_3x3 : Fin 3 → Fin 3 → ℚ
  ADVECT_ALPHA : ℚ
  T_MIN : ℚ
  T_MAX : ℚ
  TAU_TEMP : ℕ
  TAU_CATALYST : ℕ
  TAU_REFRACT : ℕ
  SPAWN_S : ℕ
  RNG_SEED : ℤ
  INITIAL_CORES : ℕ
  REDIS_URL : String
  REDIS_STATE_KEY : String
  API_HOST : String
  API_PORT : ℕ
  STREAM_FPS : ℕ
  moduleAttrs : List (String × ConfigValue)

/-- The 3×3 diffusion kernel literal from `config.py`:
`[[0.05, 0.10, 0.05], [0.10, 0.40, 0.10], [0.05, 0.10, 0.05]]`. -/
def kernel3x3 : Fin 3 → Fin 3 → ℚ := fun di dj =>
  match di, dj with
  | 0, 0 => 5/100
  | 0, 1 => 10/100
  | 0, 2 => 5/100
  | 1, 0 => 10/100
  | 1, 1 => 40/100
  | 1, 2 => 10/100
  | 2, 0 => 5/100
  | 2, 1 => 10/100
  | 2, 2 => 5/100

/-- The default values assigned in `config.py`. -/
def defaultConfig : Config where
  GRID_SIZE := 100
  DAY_TICKS := 100
  C_THRESH := 2/10
  EMIT_FRACTION := 6/10
  KERNEL_3x3 := kernel3x3
  ADVECT_ALPHA := 5/100
  T_MIN := 40/100
  T_MAX := 55/100
  TAU_TEMP := 8
  TAU_CATALYST := 12
  TAU_REFRACT := 12
  SPAWN_S := 2
  RNG_SEED := 42
  INITIAL_CORES := 10
  REDIS_URL := "redis://localhost:6379"
  REDIS_STATE_KEY := "kernel_universe:state"
  API_HOST := "0.0.0.0"
  API_PORT := 8000
  STREAM_FPS := 5
  moduleAttrs :=
    [("__name__", .str "kernel_universe.config"),
     ("__doc__", .str "Configuration parameters for the Kernel Universe simulation."),
     ("__package__", .str "kernel_universe"),
     ("__loader__", .str "<loader>"),
     ("__spec__", .str "<module spec>"),
     ("__file__", .str "kernel_universe/config.py"),
     ("__cached__", .str "<cached bytecode path>"),
     ("__builtins__", .str "<builtins>"),
     ("np", .str "<module numpy>")]

/-- `KernelUniverseSimulation.set_parameter`: Python does
`if hasattr(config, param_name): setattr(config, param_name, value); return True`
`else: return False`.  The config module's attributes are the 19 assigned
constants AND everything else in its runtime attribute table — the dunders
and the `np` binding — so all of those names are recognized and rebound
(`GRID_SIZE` and `"np"` included); only genuinely absent names return
false.  Python's `setattr` is dynamically typed; here a value whose shape
does not match a typed constant field is stored where it fits and
otherwise leaves the field as it was, while `moduleAttrs` entries are
rebound unconditionally — the recognized/unrecognized split, the Bool
result and the mutation are the observables the claim is about. -/
def set_parameter (c : Config) (name : String) (v : ConfigValue) :
    Bool × Config :=
  let asNat : ℕ → ℕ := fun old => match v with | .nat n => n | _ => old
  let asRat : ℚ → ℚ := fun old =>
    match v with | .rat q => q | .nat n => (n : ℚ) | _ => old
  let asStr : String → String := fun old => match v with | .str s => s | _ => old
  let asArr : (Fin 3 → Fin 3 → ℚ) → (Fin 3 → Fin 3 → ℚ) := fun old =>
    match v with | .arr k => k | _ => old
  if name = "GRID_SIZE" then (true, { c with GRID_SIZE := asNat c.GRID_SIZE })
  else if name = "DAY_TICKS" then (true, { c with DAY_TICKS := asNat c.DAY_TICKS })
  else if name = "C_THRESH" then (true, { c with C_THRESH := asRat c.C_THRESH })
  else if name = "EMIT_FRACTION" then
    (true, { c with EMIT_FRACTION := asRat c.EMIT_FRACTION })
  else if name = "KERNEL_3x3" then
    (true, { c with KERNEL_3x3 := asArr c.KERNEL_3x3 })
  else if name = "ADVECT_ALPHA" then
    (true, { c with ADVECT_ALPHA := asRat c.ADVECT_ALPHA })
  else if name = "T_MIN" then (true, { c with T_MIN := asRat c.T_MIN })
  else if name = "T_MAX" then (true, { c with T_MAX := asRat c.T_MAX })
  else if name = "TAU_TEMP" then (true, { c with TAU_TEMP := asNat c.TAU_TEMP })
  else if name = "TAU_CATALYST" then
    (true, { c with TAU_CATALYST := asNat c.TAU_CATALYST })
  else if name = "TAU_REFRACT" then
    (true, { c with TAU_REFRACT := asNat c.TAU_REFRACT })
  else if name = "SPAWN_S" then (true, { c with SPAWN_S := asNat c.SPAWN_S })
  else if name = "RNG_SEED" then
    (true, { c with RNG_SEED := (asNat c.RNG_SEED.toNat : ℤ) })
  else if name = "INITIAL_CORES" then
    (true, { c with INITIAL_CORES := asNat c.INITIAL_CORES })
  else if name = "REDIS_URL" then (true, { c with REDIS_URL := asStr c.REDIS_URL })
  else if name = "REDIS_STATE_KEY" then
    (true, { c with REDIS_STATE_KEY := asStr c.REDIS_STATE_KEY })
  else if name = "API_HOST" then (true, { c with API_HOST := asStr c.API_HOST })
  else if name = "API_PORT" then (true, { c with API_PORT := asNat c.API_PORT })
  else if name = "STREAM_FPS" then
    (true, { c with STREAM_FPS := asNat c.STREAM_FPS })
  else if (c.moduleAttrs.lookup name).isSome then
    (true, { c with moduleAttrs :=
      c.moduleAttrs.map (fun p => if p.1 = name then (p.1, v) else p) })
  else (false, c)

/-- The names of the 19 constants assigned in `config.py`. -/
def configConstantNames : List String :=
  ["GRID_SIZE", "DAY_TICKS", "C_THRESH", "EMIT_FRACTION", "KERNEL_3x3",
   "ADVECT_ALPHA", "T_MIN", "T_MAX", "TAU_TEMP", "TAU_CATALYST",
   "TAU_REFRACT", "SPAWN_S", "RNG_SEED", "INITIAL_CORES", "REDIS_URL",
   "REDIS_STATE_KEY", "API_HOST", "API_PORT", "STREAM_FPS"]

/-- The full attribute-name table of the config module in state `c`:
the names for which `hasattr(config, ·)` — and hence `set_parameter`
recognition — holds. -/
def configAttributeNames (c : Config) : List String :=
  configConstantNames ++ c.moduleAttrs.map Prod.fst

/-- Abstraction of `np.random.RandomState`: a position into two fixed draw
tables (see the module docstring). -/
structure RNG where
  u : ℕ → ℚ
  iv : ℕ → ℕ
  pos : ℕ

/-- One `rng.random()` scalar draw. -/
def RNG.randFloat (r : RNG) : ℚ × RNG :=
  (r.u r.pos, { r with pos := r.pos + 1 })

/-- `rng.randint(lo, hi)`: a uniform integer in `[lo, hi)`, consuming one
draw. -/
def RNG.randint (r : RNG) (lo hi : ℤ) : ℤ × RNG :=
  (lo + (r.iv r.pos : ℤ) % (hi - lo), { r with pos := r.pos + 1 })

/-- An `N×N` float grid, addressed `[row, col]` with wrap-around indices. -/
def Grid (N : ℕ) : Type := ZMod N → ZMod N → ℚ

/-- `rng.random((N, N))`: an `N×N` grid of fresh draws, row-major
(cell `[y, x]` takes draw `y * N + x`), consuming `N * N` draws. -/
def RNG.randGrid (r : RNG) (N : ℕ) : Grid N × RNG :=
  (fun y x => r.u (r.pos + y.val * N + x.val), { r with pos := r.pos + N * N })

/-- `rng.random(N)`: a column of `N` fresh draws, consuming `N` draws. -/
def RNG.randRow (r : RNG) (N : ℕ) : (ZMod N → ℚ) × RNG :=
  (fun y => r.u (r.pos + y.val), { r with pos := r.pos + N })

/-- State of one `Core` (class `Core` in `simulation.py`); the position is
a wrapped grid coordinate. -/
structure Core (N : ℕ) where
  x : ZMod N
  y : ZMod N
  temp_exposure_count : ℕ
  bloomed : Bool
  refractory_countdown : ℕ
  total_blooms : ℕ
  last_bloom_tick : ℤ

/-- `Core.__init__(x, y)`. -/
def Core.init {N : ℕ} (x y : ZMod N) : Core N :=
  { x := x, y := y, temp_exposure_count := 0, bloomed := false,
    refractory_countdown := 0, total_blooms := 0, last_bloom_tick := -1 }

/-- `Core.update(tick, temperature, catalyst, emit_mode)`: returns the
mutated core and the boolean the method returns. -/
def Core.update {N : ℕ} (cfg : Config) (c : Core N) (tick : ℕ)
    (temperature catalyst : ℚ) (emit_mode : Bool) : Core N × Bool :=
  -- Check if core is in refractory period
  if c.refractory_countdown > 0 then
    ({ c with refractory_countdown := c.refractory_countdown - 1 }, false)
  else
    -- Reset bloom state
    let c := { c with bloomed := false }
    -- Update temperature exposure counter
    let c :=
      if cfg.T_MIN ≤ temperature ∧ temperature ≤ cfg.T_MAX then
        { c with temp_exposure_count := c.temp_exposure_count + 1 }
      else
        { c with temp_exposure_count := 0 }
    -- Check bloom conditions
    let c :=
      if emit_mode ∧ cfg.C_THRESH ≤ catalyst ∧
          cfg.TAU_TEMP ≤ c.temp_exposure_count then
        { c with bloomed := true, total_blooms := c.total_blooms + 1,
                 last_bloom_tick := (tick : ℤ),
                 refractory_countdown := cfg.TAU_REFRACT,
                 temp_exposure_count := 0 }
      else c
    (c, c.bloomed)

/-- State of a `KernelUniverseSimulation` (the wall-clock `start_time` is
not modelled). -/
structure SimState (N : ℕ) where
  rng : RNG
  tick : ℕ
  temperature : Grid N
  catalyst_upper : Grid N
  catalyst_lower : Grid N
  cores : List (Core N)
  total_blooms : ℕ
  bloom_locations : List (ZMod N × ZMod N × ℕ)

/-- The per-tick statistics record returned by `step()`. -/
structure StepStats where
  tick : ℕ
  emit_mode : Bool
  blooms_this_tick : ℕ
  total_blooms : ℕ
  total_catalyst : ℚ
  deriving DecidableEq

/-- Total mass of one grid: `np.sum`. -/
def gridSum {N : ℕ} [NeZero N] (g : Grid N) : ℚ :=
  ∑ y : ZMod N, ∑ x : ZMod N, g y x

/-- `sum(catalyst_upper) + sum(catalyst_lower)`: the conserved quantity. -/
def totalCatalyst {N : ℕ} [NeZero N] (s : SimState N) : ℚ :=
  gridSum s.catalyst_upper + gridSum s.catalyst_lower

/-- `shift_temperature`: `np.roll(temperature, 1, axis=1)` (new column `c`
is the old column `c − 1`, wrapping) and then a fresh leftmost column drawn
from the stream. -/
def shift_temperature {N : ℕ} (s : SimState N) : SimState N :=
  let rolled : Grid N := fun y x => s.temperature y (x - 1)
  let (newcol, r') := s.rng.randRow N
  { s with
    temperature := fun y x => if x = 0 then newcol y else rolled y x,
    rng := r' }

/-- `apply_convolution` for the 3×3 case used by the program:
`pad_width = 1`, wrap padding, so
`output[i, j] = Σ window[di, dj] * kernel[di, dj]` with
`window[di, dj] = input[(i + di − 1) mod N, (j + dj − 1) mod N]`. -/
def apply_convolution {N : ℕ} (g : Grid N) (kernel : Fin 3 → Fin 3 → ℚ) :
    Grid N :=
  fun i j => ∑ di : Fin 3, ∑ dj : Fin 3,
    g (i + (di.val : ZMod N) - 1) (j + (dj.val : ZMod N) - 1) * kernel di dj

/-- `advect_right`: `(1 − alpha) * array + alpha * np.roll(array, 1, axis=1)`. -/
def advect_right {N : ℕ} (g : Grid N) (alpha : ℚ) : Grid N :=
  fun y x => (1 - alpha) * g y x + alpha * g y (x - 1)

/-- `spawn_new_cores(parent_x, parent_y, count)`: the list of cores it
appends (in draw order) and the advanced stream.  Each spawn draws
`dx = randint(-5, 6)` then `dy = randint(-5, 6)` and places the core at
`((parent_x + dx) mod N, (parent_y + dy) mod N)`. -/
def spawn_new_cores {N : ℕ} (parent_x parent_y : ZMod N) :
    ℕ → RNG → List (Core N) × RNG
  | 0, r => ([], r)
  | count + 1, r =>
    let (dx, r1) := r.randint (-5) 6
    let (dy, r2) := r1.randint (-5) 6
    let c := Core.init (parent_x + (dx : ZMod N)) (parent_y + (dy : ZMod N))
    let (rest, r3) := spawn_new_cores parent_x parent_y count r2
    (c :: rest, r3)

/-- The `while True` body of `initialize_cores`: draw `(x, y)` pairs until
one is not already taken (with explicit retry fuel; on exhausted fuel the
last draw is accepted — a path never reached in the concrete runs below). -/
def drawFreshPos {N : ℕ} (positions : List (ZMod N × ZMod N)) :
    ℕ → RNG → (ZMod N × ZMod N) × RNG
  | 0, r =>
    let (xi, r1) := r.randint 0 (N : ℤ)
    let (yi, r2) := r1.randint 0 (N : ℤ)
    ((((xi : ℤ) : ZMod N), ((yi : ℤ) : ZMod N)), r2)
  | fuel + 1, r =>
    let (xi, r1) := r.randint 0 (N : ℤ)
    let (yi, r2) := r1.randint 0 (N : ℤ)
    let p : ZMod N × ZMod N := (((xi : ℤ) : ZMod N), ((yi : ℤ) : ZMod N))
    if p ∈ positions then drawFreshPos positions fuel r2 else (p, r2)

/-- The `for _ in range(num_cores)` loop of `initialize_cores`, threading
the taken-position set and appending one fresh core per iteration. -/
def initCoresGo {N : ℕ} :
    ℕ → List (ZMod N × ZMod N) → List (Core N) → RNG → List (Core N) × RNG
  | 0, _, cores, r => (cores, r)
  | n + 1, positions, cores, r =>
    let (p, r') := drawFreshPos positions (N * N) r
    initCoresGo n (p :: positions) (cores ++ [Core.init p.1 p.2]) r'

/-- `initialize_cores(num_cores)`: starts from an empty taken-position set. -/
def initialize_cores {N : ℕ} (num : ℕ) (cores : List (Core N)) (r : RNG) :
    List (Core N) × RNG :=
  initCoresGo num [] cores r

/-- `reset()`: fresh temperature grid, zeroed catalyst layers with the upper
layer overwritten by fresh draws scaled by `0.2`, fresh initial cores,
counters zeroed.  The stream is NOT reseeded: draws continue from the
current position, exactly as in the source (`self.rng` is reused). -/
def reset {N : ℕ} (cfg : Config) (s : SimState N) : SimState N :=
  let (temperature, r1) := s.rng.randGrid N
  -- np.zeros for both layers; upper is then overwritten by draws * 0.2
  let zeros : Grid N := fun _ _ => 0
  let (upperDraw, r2) := r1.randGrid N
  let catalyst_upper : Grid N := fun y x => upperDraw y x * (2/10)
  let (cores, r3) := initialize_cores cfg.INITIAL_CORES [] r2
  { rng := r3, tick := 0, temperature := temperature,
    catalyst_upper := catalyst_upper, catalyst_lower := zeros,
    cores := cores, total_blooms := 0, bloom_locations := [] }

/-- `KernelUniverseSimulation.__init__(seed)`: builds the stream for the
seed (position 0) and calls `reset()`.  `u`/`iv` are the per-seed draw
tables of the abstracted generator. -/
def mkSim (N : ℕ) (cfg : Config) (u : ℤ → ℕ → ℚ) (iv : ℤ → ℕ → ℕ)
    (seed : ℤ) : SimState N :=
  reset cfg
    { rng := { u := u seed, iv := iv seed, pos := 0 }, tick := 0,
      temperature := fun _ _ => 0, catalyst_upper := fun _ _ => 0,
      catalyst_lower := fun _ _ => 0, cores := [], total_blooms := 0,
      bloom_locations := [] }

/-- Accumulator for the core-update loop of `step()`: the fields the loop
mutates. -/
structure LoopAcc (N : ℕ) where
  cores : List (Core N)
  rng : RNG
  total_blooms : ℕ
  bloom_locations : List (ZMod N × ZMod N × ℕ)
  blooms_this_tick : ℕ

/-- The `for core in self.cores` loop of `step()`, modelled like CPython's
list iterator: an index checked against the *current* list length, so cores
appended by `spawn_new_cores` while looping are visited too. -/
def coreLoop {N : ℕ} (cfg : Config) (tick : ℕ)
    (temperature catalyst_upper : Grid N) (emit_mode : Bool) :
    ℕ → ℕ → LoopAcc N → LoopAcc N
  | 0, _, acc => acc
  | fuel + 1, idx, acc =>
    match acc.cores[idx]? with
    | none => acc
    | some core =>
      let temperature_at_core := temperature core.y core.x
      let catalyst_at_core := catalyst_upper core.y core.x
      let (core', did_bloom) :=
        core.update cfg tick temperature_at_core catalyst_at_core emit_mode
      let cores' := acc.cores.set idx core'
      if did_bloom then
        let (spawned, rng') :=
          if 0 < cfg.SPAWN_S then
            spawn_new_cores core.x core.y cfg.SPAWN_S acc.rng
          else ([], acc.rng)
        coreLoop cfg tick temperature catalyst_upper emit_mode fuel (idx + 1)
          { cores := cores' ++ spawned, rng := rng',
            total_blooms := acc.total_blooms + 1,
            bloom_locations := acc.bloom_locations ++ [(core.x, core.y, tick)],
            blooms_this_tick := acc.blooms_this_tick + 1 }
      else
        coreLoop cfg tick temperature catalyst_upper emit_mode fuel (idx + 1)
          { acc with cores := cores' }

/-- `step()`: tick increment, parity mode, temperature scroll, the
mode-selected catalyst transform, the core loop and the stats record. -/
def step {N : ℕ} [NeZero N] (cfg : Config) (s : SimState N) :
    SimState N × StepStats :=
  let tick := s.tick + 1
  let emit_mode : Bool := decide (tick % 2 = 0)
  let s1 := shift_temperature { s with tick := tick }
  let s2 :=
    if emit_mode then
      let transfer : Grid N := fun y x =>
        s1.catalyst_upper y x * cfg.EMIT_FRACTION
      { s1 with
        catalyst_lower := fun y x => s1.catalyst_lower y x + transfer y x,
        catalyst_upper := fun y x => s1.catalyst_upper y x - transfer y x }
    else
      let lifted : Grid N := fun y x =>
        s1.catalyst_upper y x + s1.catalyst_lower y x
      let diffused := apply_convolution lifted cfg.KERNEL_3x3
      { s1 with
        catalyst_upper := advect_right diffused cfg.ADVECT_ALPHA,
        catalyst_lower := fun _ _ => 0 }
  let acc0 : LoopAcc N :=
    { cores := s2.cores, rng := s2.rng, total_blooms := s2.total_blooms,
      bloom_locations := s2.bloom_locations, blooms_this_tick := 0 }
  let fuel := s2.cores.length * (1 + cfg.SPAWN_S) + 1
  let acc :=
    coreLoop cfg tick s2.temperature s2.catalyst_upper emit_mode fuel 0 acc0
  let s3 :=
    { s2 with cores := acc.cores, rng := acc.rng,
              total_blooms := acc.total_blooms,
              bloom_locations := acc.bloom_locations }
  (s3, { tick := tick, emit_mode := emit_mode,
         blooms_this_tick := acc.blooms_this_tick,
         total_blooms := acc.total_blooms,
         total_catalyst := totalCatalyst s3 })

/-- The list of `StepStats` produced by `k` consecutive `step()` calls. -/
def statsTrace {N : ℕ} [NeZero N] (cfg : Config) : SimState N → ℕ → List StepStats
  | _, 0 => []
  | s, k + 1 =>
    let (s', st) := step cfg s
    st :: statsTrace cfg s' k

/-- The state after `k` consecutive `step()` calls. -/
def stepIter {N : ℕ} [NeZero N] (cfg : Config) : SimState N → ℕ → SimState N
  | s, 0 => s
  | s, k + 1 => stepIter cfg (step cfg s).1 k

/-- Sum of the weights of a 3×3 kernel. -/
def kernelSum (k : Fin 3 → Fin 3 → ℚ) : ℚ :=
  ∑ di : Fin 3, ∑ dj : Fin 3, k di dj

/-! ## Concrete inputs used by witnesses and counterexamples -/

/-- A bloom-ready core: no refractory, exposure one short of `TAU_TEMP`. -/
def readyCore : Core 1 :=
  { x := 0, y := 0, temp_exposure_count := 7, bloomed := false,
    refractory_countdown := 0, total_blooms := 0, last_bloom_tick := -1 }

/-- A core in mid-refractory that bloomed earlier (`bloomed` still set,
as `update` leaves it after a bloom). -/
def refractoryCore : Core 1 :=
  { x := 0, y := 0, temp_exposure_count := 3, bloomed := true,
    refractory_countdown := 2, total_blooms := 1, last_bloom_tick := 5 }

/-- A 5×5 simulation state about to run emission tick 2 with one
bloom-ready core at `(0, 0)`: temperature is uniformly `1/2` (inside
`[T_MIN, T_MAX]`) and the upper catalyst layer is uniformly `1`, so after
the emission transfer the catalyst under the core is `0.4 ≥ C_THRESH`. -/
def bloomState : SimState 5 :=
  { rng := { u := fun _ => 1/2, iv := fun _ => 0, pos := 0 }, tick := 1,
    temperature := fun _ _ => 1/2, catalyst_upper := fun _ _ => 1,
    catalyst_lower := fun _ _ => 0,
    cores := [{ x := 0, y := 0, temp_exposure_count := 7, bloomed := false,
                refractory_countdown := 0, total_blooms := 0,
                last_bloom_tick := -1 }],
    total_blooms := 0, bloom_locations := [] }

/-- A small all-zero catalyst state used to instantiate universally
quantified theorems at a concrete input. -/
def plainState : SimState 2 :=
  { rng := { u := fun _ => 1/2, iv := fun _ => 0, pos := 0 }, tick := 0,
    temperature := fun _ _ => 1/2, catalyst_upper := fun _ _ => 0,
    catalyst_lower := fun _ _ => 0, cores := [], total_blooms := 0,
    bloom_locations := [] }

/-- Draw table for the reset counterexample: pairwise distinct rationals. -/
def resetU : ℤ → ℕ → ℚ := fun _ n => mkRat 1 (n + 2)

/-- Integer draw table for the reset counterexample, designed so that the
10 initial core positions of the first reset on a 4×4 grid are pairwise
distinct (cores draw at positions 32..51 after the two 16-cell grids). -/
def resetIv : ℤ → ℕ → ℕ := fun _ n =>
  if n % 2 = 0 then ((n - 32) / 2) % 4 else ((n - 32) / 2) / 4

/-- A freshly constructed 4×4 simulation for the reset counterexample. -/
def resetSim : SimState 4 := mkSim 4 defaultConfig resetU resetIv 42

/-! ## Claims -/

/-- C3 counterexample: a core with `refractory_countdown = 2 > 0` and
`bloomed = true` keeps `bloomed = true` after `update` — the claim says the
call sets `bloomed` to false, and that `bloomed` is true only during the
bloom tick itself. -/
theorem C3_counterexample :
    0 < refractoryCore.refractory_countdown ∧
    (refractoryCore.update defaultConfig 6 (1/2) 1 true).1.bloomed = true := by
  with_unfolding_all decide

/-- C3 (amended): while `refractory_countdown > 0`, `update` decrements the
countdown by exactly 1, returns false, and leaves every other field —
`bloomed` included — unchanged; a core that bloomed therefore keeps
`bloomed = true` through its refractory period. -/
theorem C3_refractory_update {N : ℕ} (cfg : Config) (c : Core N) (tick : ℕ)
    (temperature catalyst : ℚ) (emit_mode : Bool)
    (h : 0 < c.refractory_countdown) :
    c.update cfg tick temperature catalyst emit_mode =
      ({ c with refractory_countdown := c.refractory_countdown - 1 }, false) := by
  simp [Core.update, h]

/-- C3 witness: the amended statement applied to `refractoryCore`. -/
theorem C3_refractory_update_witness :
    refractoryCore.update defaultConfig 6 (1/2) 1 true =
      ({ refractoryCore with refractory_countdown := 1 }, false) :=
  C3_refractory_update defaultConfig refractoryCore 6 (1/2) 1 true (by decide)

/-- C5: two simulations constructed with the same seed (hence the same
abstracted draw tables) produce identical `StepStats` sequences for the
same number of steps. -/
theorem C5_determinism (N : ℕ) [NeZero N] (cfg : Config) (u : ℤ → ℕ → ℚ)
    (iv : ℤ → ℕ → ℕ) (seed : ℤ) (k : ℕ) :
    statsTrace cfg (mkSim N cfg u iv seed) k =
      statsTrace cfg (mkSim N cfg u iv seed) k := rfl

/-- C5 witness: the determinism statement at a concrete seed and length. -/
theorem C5_determinism_witness :
    statsTrace defaultConfig (mkSim 1 defaultConfig (fun _ _ => 0) (fun _ _ => 0) 42) 2 =
      statsTrace defaultConfig (mkSim 1 defaultConfig (fun _ _ => 0) (fun _ _ => 0) 42) 2 :=
  C5_determinism 1 defaultConfig (fun _ _ => 0) (fun _ _ => 0) 42 2

/-- C6: a non-refractory core one exposure short of `TAU_TEMP`, updated
once with in-range temperature, `emit_mode = true` and catalyst at least
`C_THRESH`, blooms on that update: it returns true and leaves
`bloomed = true`, `total_blooms` incremented, `last_bloom_tick = tick`,
`refractory_countdown = TAU_REFRACT`, `temp_exposure_count = 0`. -/
theorem C6_bloom_trigger {N : ℕ} (cfg : Config) (c : Core N) (tick : ℕ)
    (temperature catalyst : ℚ)
    (hr : c.refractory_countdown = 0)
    (he : c.temp_exposure_count = cfg.TAU_TEMP - 1)
    (ht1 : cfg.T_MIN ≤ temperature) (ht2 : temperature ≤ cfg.T_MAX)
    (hc : cfg.C_THRESH ≤ catalyst) :
    c.update cfg tick temperature catalyst true =
      ({ c with bloomed := true, temp_exposure_count := 0,
                total_blooms := c.total_blooms + 1,
                last_bloom_tick := (tick : ℤ),
                refractory_countdown := cfg.TAU_REFRACT }, true) := by
  have h1 : ¬ 0 < c.refractory_countdown := by omega
  have h3 : cfg.TAU_TEMP ≤ c.temp_exposure_count + 1 := by omega
  simp [Core.update, h1, ht1, ht2, hc, h3]

/-- C6 witness: the bloom trigger applied to `readyCore` under the default
configuration with temperature `1/2 ∈ [0.40, 0.55]` and catalyst `1`. -/
theorem C6_bloom_trigger_witness :
    readyCore.update defaultConfig 3 (1/2) 1 true =
      ({ readyCore with bloomed := true, temp_exposure_count := 0,
                        total_blooms := 1, last_bloom_tick := 3,
                        refractory_countdown := 12 }, true) :=
  C6_bloom_trigger defaultConfig readyCore 3 (1/2) 1 rfl rfl
    (by with_unfolding_all decide) (by with_unfolding_all decide)
    (by with_unfolding_all decide)

/-- C9 counterexample: `"GRID_SIZE"` is an attribute of the config module,
so `set_parameter` recognizes it, returns true and mutates the grid size —
the claim says grid size is not updatable through `set_parameter`. -/
theorem C9_counterexample :
    (set_parameter defaultConfig "GRID_SIZE" (.nat 50)).1 = true ∧
    (set_parameter defaultConfig "GRID_SIZE" (.nat 50)).2.GRID_SIZE = 50 ∧
    defaultConfig.GRID_SIZE = 100 := by
  with_unfolding_all decide

/-- A name absent from the key column of an association list has no
`lookup` result. -/
lemma lookup_eq_none_of_not_mem_keys :
    ∀ (l : List (String × ConfigValue)) (name : String),
      name ∉ l.map Prod.fst → l.lookup name = none := by
  intro l
  induction l with
  | nil => intro name _; rfl
  | cons p tl ih =>
    obtain ⟨k, val⟩ := p
    intro name h
    simp only [List.map_cons, List.mem_cons, not_or] at h
    have hb : (name == k) = false := by
      simpa using h.1
    simp [List.lookup, hb, ih name h.2]

/-- A name present in the key column of an association list has a
`lookup` result. -/
lemma lookup_isSome_of_mem_keys :
    ∀ (l : List (String × ConfigValue)) (name : String),
      name ∈ l.map Prod.fst → (l.lookup name).isSome = true := by
  intro l
  induction l with
  | nil => intro name h; simp at h
  | cons p tl ih =>
    obtain ⟨k, val⟩ := p
    intro name h
    by_cases hk : name = k
    · subst hk
      simp [List.lookup]
    · have hb : (name == k) = false := by simpa using hk
      simp only [List.map_cons, List.mem_cons] at h
      simp [List.lookup, hb, ih name (h.resolve_left hk)]

/-- C9 (amended): `set_parameter` returns false and leaves the
configuration unchanged exactly for names that are not attributes of the
config module; for every attribute name — the 19 assigned constants plus
the module's incidental attributes such as `np` and the dunders — it
returns true and rebinds the attribute, and in particular `"GRID_SIZE"` is
recognized and updated. -/
theorem C9_set_parameter (c : Config) (name : String) (v : ConfigValue) :
    (name ∉ configAttributeNames c → set_parameter c name v = (false, c)) ∧
    (name ∈ configAttributeNames c → (set_parameter c name v).1 = true) ∧
    (∀ n : ℕ, set_parameter c "GRID_SIZE" (.nat n) =
      (true, { c with GRID_SIZE := n })) ∧
    (set_parameter defaultConfig "np" v).1 = true ∧
    (set_parameter defaultConfig "__name__" v).1 = true := by
  refine ⟨?_, ?_, fun n => rfl, rfl, rfl⟩
  · intro h
    simp only [configAttributeNames, configConstantNames, List.mem_append,
      List.mem_cons, List.not_mem_nil, or_false, not_or] at h
    obtain ⟨⟨h1, h2, h3, h4, h5, h6, h7, h8, h9, h10, h11, h12, h13, h14,
      h15, h16, h17, h18, h19⟩, hm⟩ := h
    have hlook : c.moduleAttrs.lookup name = none :=
      lookup_eq_none_of_not_mem_keys c.moduleAttrs name hm
    simp [set_parameter, h1, h2, h3, h4, h5, h6, h7, h8, h9, h10, h11, h12,
      h13, h14, h15, h16, h17, h18, h19, hlook]
  · intro h
    rw [configAttributeNames, List.mem_append] at h
    by_cases hn : name ∈ configConstantNames
    · simp only [configConstantNames, List.mem_cons, List.not_mem_nil,
        or_false] at hn
      rcases hn with rfl | rfl | rfl | rfl | rfl | rfl | rfl | rfl | rfl
        | rfl | rfl | rfl | rfl | rfl | rfl | rfl | rfl | rfl | rfl <;> rfl
    · have hm : name ∈ c.moduleAttrs.map Prod.fst := h.resolve_left hn
      simp only [configConstantNames, List.mem_cons, List.not_mem_nil,
        or_false, not_or] at hn
      obtain ⟨h1, h2, h3, h4, h5, h6, h7, h8, h9, h10, h11, h12, h13, h14,
        h15, h16, h17, h18, h19⟩ := hn
      have hsome := lookup_isSome_of_mem_keys c.moduleAttrs name hm
      simp [set_parameter, h1, h2, h3, h4, h5, h6, h7, h8, h9, h10, h11,
        h12, h13, h14, h15, h16, h17, h18, h19, hsome]

/-- C9 witness: the amended statement applied at the incidental attribute
`"np"` (recognized, so `set_parameter` returns true for it), including the
`GRID_SIZE` update equation. -/
theorem C9_set_parameter_witness :
    ("np" ∉ configAttributeNames defaultConfig →
      set_parameter defaultConfig "np" (.nat 3) = (false, defaultConfig)) ∧
    ("np" ∈ configAttributeNames defaultConfig →
      (set_parameter defaultConfig "np" (.nat 3)).1 = true) ∧
    (∀ n : ℕ, set_parameter defaultConfig "GRID_SIZE" (.nat n) =
      (true, { defaultConfig with GRID_SIZE := n })) ∧
    (set_parameter defaultConfig "np" (.nat 3)).1 = true ∧
    (set_parameter defaultConfig "__name__" (.nat 3)).1 = true :=
  C9_set_parameter defaultConfig "np" (.nat 3)

/-- C7: after one temperature scroll, every column `c ≠ 0` holds the old
column `c − 1`, column 0 holds the `N` fresh stream draws at the current
position (advancing it by `N`), in-range values stay in `[0, 1)` when the
stream draws in `[0, 1)`, `step` scrolls exactly once, and `reset` fills
the grid with in-range draws. -/
theorem C7_temperature_scroll {N : ℕ} [NeZero N] (cfg : Config)
    (s : SimState N) :
    (∀ y x, x ≠ 0 →
      (shift_temperature s).temperature y x = s.temperature y (x - 1)) ∧
    (∀ y, (shift_temperature s).temperature y 0 =
      s.rng.u (s.rng.pos + y.val)) ∧
    (shift_temperature s).rng.pos = s.rng.pos + N ∧
    ((∀ n, 0 ≤ s.rng.u n ∧ s.rng.u n < 1) →
      (∀ y x, 0 ≤ s.temperature y x ∧ s.temperature y x < 1) →
      ∀ y x, 0 ≤ (shift_temperature s).temperature y x ∧
        (shift_temperature s).temperature y x < 1) ∧
    (step cfg s).1.temperature =
      (shift_temperature { s with tick := s.tick + 1 }).temperature ∧
    ((∀ n, 0 ≤ s.rng.u n ∧ s.rng.u n < 1) →
      ∀ y x, 0 ≤ (reset cfg s).temperature y x ∧
        (reset cfg s).temperature y x < 1) := by
  refine ⟨?_, ?_, rfl, ?_, ?_, ?_⟩
  · intro y x hx
    simp [shift_temperature, RNG.randRow, hx]
  · intro y
    simp [shift_temperature, RNG.randRow]
  · intro hu hs y x
    by_cases hx : x = 0
    · simpa [shift_temperature, RNG.randRow, hx] using hu (s.rng.pos + y.val)
    · simpa [shift_temperature, RNG.randRow, hx] using hs y (x - 1)
  · show (step cfg s).1.temperature = _
    unfold step
    cases h : decide ((s.tick + 1) % 2 = 0) <;> simp [h]
  · intro hu y x
    simpa [reset, RNG.randGrid, initialize_cores] using
      hu (s.rng.pos + y.val * N + x.val)

/-- C7 witness: the scroll characterization at a concrete 2×2 state with a
constant in-range stream. -/
theorem C7_temperature_scroll_witness :
    (∀ y x, x ≠ 0 →
      (shift_temperature plainState).temperature y x =
        plainState.temperature y (x - 1)) ∧
    (∀ y, (shift_temperature plainState).temperature y 0 =
      plainState.rng.u (plainState.rng.pos + y.val)) ∧
    (shift_temperature plainState).rng.pos = plainState.rng.pos + 2 ∧
    ((∀ n, 0 ≤ plainState.rng.u n ∧ plainState.rng.u n < 1) →
      (∀ y x, 0 ≤ plainState.temperature y x ∧
        plainState.temperature y x < 1) →
      ∀ y x, 0 ≤ (shift_temperature plainState).temperature y x ∧
        (shift_temperature plainState).temperature y x < 1) ∧
    (step defaultConfig plainState).1.temperature =
      (shift_temperature
        { plainState with tick := plainState.tick + 1 }).temperature ∧
    ((∀ n, 0 ≤ plainState.rng.u n ∧ plainState.rng.u n < 1) →
      ∀ y x, 0 ≤ (reset defaultConfig plainState).temperature y x ∧
        (reset defaultConfig plainState).temperature y x < 1) :=
  C7_temperature_scroll defaultConfig plainState

/-- C8: every `step` increments the tick by exactly 1, reports emission
mode exactly when the incremented tick is even (so the first step, tick 1,
is collection), and applies exactly the emission transfer on emission
ticks and exactly the lift–convolution–advection pipeline on collection
ticks. -/
theorem C8_step_mode {N : ℕ} [NeZero N] (cfg : Config) (s : SimState N) :
    (step cfg s).1.tick = s.tick + 1 ∧
    (step cfg s).2.tick = s.tick + 1 ∧
    (step cfg s).2.emit_mode = decide ((s.tick + 1) % 2 = 0) ∧
    (s.tick = 0 → (step cfg s).2.emit_mode = false) ∧
    (step cfg s).1.catalyst_upper =
      (if (s.tick + 1) % 2 = 0 then
        (fun y x => s.catalyst_upper y x - s.catalyst_upper y x * cfg.EMIT_FRACTION)
      else
        advect_right
          (apply_convolution
            (fun y x => s.catalyst_upper y x + s.catalyst_lower y x)
            cfg.KERNEL_3x3) cfg.ADVECT_ALPHA) ∧
    (step cfg s).1.catalyst_lower =
      (if (s.tick + 1) % 2 = 0 then
        (fun y x => s.catalyst_lower y x + s.catalyst_upper y x * cfg.EMIT_FRACTION)
      else (fun _ _ => 0)) := by
  by_cases hp : (s.tick + 1) % 2 = 0
  · have hd : decide ((s.tick + 1) % 2 = 0) = true := by simpa using hp
    refine ⟨?_, ?_, ?_, ?_, ?_, ?_⟩ <;>
      first
        | (intro h0; omega)
        | (unfold step; simp [hd, hp, shift_temperature])
  · have hd : decide ((s.tick + 1) % 2 = 0) = false := by simpa using hp
    refine ⟨?_, ?_, ?_, ?_, ?_, ?_⟩ <;>
      first
        | (intro h0; unfold step; simp [hd])
        | (unfold step; simp [hd, hp, shift_temperature])

/-- C8 witness: the mode characterization at the concrete `plainState`
(tick 0, so the first step is a collection tick). -/
theorem C8_step_mode_witness :
    (step defaultConfig plainState).1.tick = plainState.tick + 1 ∧
    (step defaultConfig plainState).2.tick = plainState.tick + 1 ∧
    (step defaultConfig plainState).2.emit_mode =
      decide ((plainState.tick + 1) % 2 = 0) ∧
    (plainState.tick = 0 →
      (step defaultConfig plainState).2.emit_mode = false) ∧
    (step defaultConfig plainState).1.catalyst_upper =
      (if (plainState.tick + 1) % 2 = 0 then
        (fun y x => plainState.catalyst_upper y x -
          plainState.catalyst_upper y x * defaultConfig.EMIT_FRACTION)
      else
        advect_right
          (apply_convolution
            (fun y x => plainState.catalyst_upper y x +
              plainState.catalyst_lower y x)
            defaultConfig.KERNEL_3x3) defaultConfig.ADVECT_ALPHA) ∧
    (step defaultConfig plainState).1.catalyst_lower =
      (if (plainState.tick + 1) % 2 = 0 then
        (fun y x => plainState.catalyst_lower y x +
          plainState.catalyst_upper y x * defaultConfig.EMIT_FRACTION)
      else (fun _ _ => 0)) :=
  C8_step_mode defaultConfig plainState

/-- C4 counterexample: a second `reset()` on a freshly constructed
simulation yields a different temperature field than construction did
(cell `(0,0)` changes from the stream's draw 0 to its draw 52), because
`reset` keeps drawing from the advanced stream instead of reseeding — so
consecutive resets are not identical and a reset state is not identical to
a fresh same-seed construction. -/
theorem C4_counterexample :
    resetSim.temperature 0 0 = mkRat 1 2 ∧
    (reset defaultConfig resetSim).temperature 0 0 = mkRat 1 54 ∧
    (reset defaultConfig resetSim).temperature 0 0 ≠
      resetSim.temperature 0 0 := by
  with_unfolding_all decide

/-- `drawFreshPos` only advances the stream position; the draw tables are
untouched. -/
lemma drawFreshPos_rng {N : ℕ} :
    ∀ (fuel : ℕ) (ps : List (ZMod N × ZMod N)) (r : RNG),
      ∃ p, (drawFreshPos ps fuel r).2 = { r with pos := p } := by
  intro fuel
  induction fuel with
  | zero => intro ps r; exact ⟨r.pos + 1 + 1, rfl⟩
  | succ fuel ih =>
    intro ps r
    unfold drawFreshPos
    simp only [RNG.randint]
    split
    · obtain ⟨p, hp⟩ := ih ps _
      exact ⟨p, hp⟩
    · exact ⟨r.pos + 1 + 1, rfl⟩

/-- `initCoresGo` appends exactly one core per requested core and leaves
the draw tables untouched. -/
lemma initCoresGo_length_tables {N : ℕ} :
    ∀ (n : ℕ) (ps : List (ZMod N × ZMod N)) (cs : List (Core N)) (r : RNG),
      (initCoresGo n ps cs r).1.length = cs.length + n ∧
      (initCoresGo n ps cs r).2.u = r.u ∧
      (initCoresGo n ps cs r).2.iv = r.iv := by
  intro n
  induction n with
  | zero => intro ps cs r; exact ⟨rfl, rfl, rfl⟩
  | succ n ih =>
    intro ps cs r
    unfold initCoresGo
    obtain ⟨hl, hu, hiv⟩ :=
      ih ((drawFreshPos ps (N * N) r).1 :: ps)
        (cs ++ [Core.init (drawFreshPos ps (N * N) r).1.1
          (drawFreshPos ps (N * N) r).1.2])
        (drawFreshPos ps (N * N) r).2
    obtain ⟨p, hp⟩ := drawFreshPos_rng (N * N) ps r
    refine ⟨?_, ?_, ?_⟩
    · simp only [hl, List.length_append, List.length_cons, List.length_nil]
      omega
    · rw [hu, hp]
    · rw [hiv, hp]

/-- C4 (amended): `reset()` reinitializes the tick, counters, bloom log,
catalyst layers and core population (exactly `INITIAL_CORES` fresh cores),
drawing from the *current* stream position rather than from a new stream
seeded with the configured seed; the draw tables themselves are unchanged,
and construction is exactly one `reset` applied to a pristine
position-zero stream.  (Consecutive resets therefore generally differ.) -/
theorem C4_reset_state {N : ℕ} (cfg : Config) (s : SimState N) :
    (reset cfg s).tick = 0 ∧
    (reset cfg s).total_blooms = 0 ∧
    (reset cfg s).bloom_locations = [] ∧
    (∀ y x, (reset cfg s).catalyst_lower y x = 0) ∧
    (reset cfg s).cores.length = cfg.INITIAL_CORES ∧
    (reset cfg s).rng.u = s.rng.u ∧
    (reset cfg s).rng.iv = s.rng.iv ∧
    (∀ (u : ℤ → ℕ → ℚ) (iv : ℤ → ℕ → ℕ) (seed : ℤ),
      mkSim N cfg u iv seed = reset cfg
        { rng := { u := u seed, iv := iv seed, pos := 0 }, tick := 0,
          temperature := fun _ _ => 0, catalyst_upper := fun _ _ => 0,
          catalyst_lower := fun _ _ => 0, cores := [], total_blooms := 0,
          bloom_locations := [] }) := by
  obtain ⟨hl, hu, hiv⟩ :=
    initCoresGo_length_tables (N := N) cfg.INITIAL_CORES [] []
      { s.rng with pos := s.rng.pos + N * N + N * N }
  refine ⟨rfl, rfl, rfl, fun y x => rfl, ?_, ?_, ?_, fun u iv seed => rfl⟩
  · simpa [reset, initialize_cores, RNG.randGrid] using hl
  · simpa [reset, initialize_cores, RNG.randGrid] using hu
  · simpa [reset, initialize_cores, RNG.randGrid] using hiv

/-- C4 witness: the amended reset characterization at the concrete
counterexample simulation. -/
theorem C4_reset_state_witness :
    (reset defaultConfig resetSim).tick = 0 ∧
    (reset defaultConfig resetSim).total_blooms = 0 ∧
    (reset defaultConfig resetSim).bloom_locations = [] ∧
    (∀ y x, (reset defaultConfig resetSim).catalyst_lower y x = 0) ∧
    (reset defaultConfig resetSim).cores.length =
      defaultConfig.INITIAL_CORES ∧
    (reset defaultConfig resetSim).rng.u = resetSim.rng.u ∧
    (reset defaultConfig resetSim).rng.iv = resetSim.rng.iv ∧
    (∀ (u : ℤ → ℕ → ℚ) (iv : ℤ → ℕ → ℕ) (seed : ℤ),
      mkSim 4 defaultConfig u iv seed = reset defaultConfig
        { rng := { u := u seed, iv := iv seed, pos := 0 }, tick := 0,
          temperature := fun _ _ => 0, catalyst_upper := fun _ _ => 0,
          catalyst_lower := fun _ _ => 0, cores := [], total_blooms := 0,
          bloom_locations := [] }) :=
  C4_reset_state defaultConfig resetSim

/-- C2: evaluation of `step()` at the failing input `bloomState`.  The
single pre-existing core blooms on tick 2 and spawns exactly `SPAWN_S = 2`
cores at `((0 − 5) mod 5, (0 − 5) mod 5) = (0, 0)` — but because the core
loop iterates the *live* list, both newly spawned cores are themselves
updated during their birth tick: they end the tick with
`temp_exposure_count = 1` (the uniform temperature `1/2` is in range),
not `0` as a start-of-tick snapshot would leave them. -/
theorem C2_spawned_cores_updated :
    (step defaultConfig bloomState).1.cores.map
        (fun c => (c.x, c.y, c.temp_exposure_count, c.bloomed, c.total_blooms)) =
      [(0, 0, 0, true, 1), (0, 0, 1, false, 0), (0, 0, 1, false, 0)] ∧
    (step defaultConfig bloomState).2.blooms_this_tick = 1 ∧
    (step defaultConfig bloomState).1.cores.length = 3 := by
  with_unfolding_all decide

/-- `Core.update` increments the core's own bloom counter exactly when it
returns true. -/
lemma Core.update_total {N : ℕ} (cfg : Config) (c : Core N) (tick : ℕ)
    (te ca : ℚ) (em : Bool) :
    ((c.update cfg tick te ca em).1).total_blooms =
      c.total_blooms + (if (c.update cfg tick te ca em).2 then 1 else 0) := by
  by_cases h0 : 0 < c.refractory_countdown
  · simp [Core.update, h0]
  · by_cases h1 : cfg.T_MIN ≤ te ∧ te ≤ cfg.T_MAX <;>
      simp [Core.update, h0, h1] <;> (split <;> simp)

/-- Replacing one list element shifts a mapped sum by the difference of
the images (cancellation form over `ℕ`). -/
lemma sum_map_set {α : Type _} (f : α → ℕ) :
    ∀ (l : List α) (i : ℕ) (a c : α), l[i]? = some c →
      ((l.set i a).map f).sum + f c = (l.map f).sum + f a := by
  intro l
  induction l with
  | nil => intro i a c h; simp at h
  | cons hd tl ih =>
    intro i a c h
    cases i with
    | zero =>
      simp only [List.getElem?_cons_zero, Option.some_inj] at h
      subst h
      simp only [List.set_cons_zero, List.map_cons, List.sum_cons]
      omega
    | succ n =>
      simp only [List.getElem?_cons_succ] at h
      have := ih n a c h
      simp only [List.set_cons_succ, List.map_cons, List.sum_cons]
      omega

/-- Every core produced by `spawn_new_cores` starts with zero blooms. -/
lemma spawn_new_cores_total {N : ℕ} (px py : ZMod N) :
    ∀ (k : ℕ) (r : RNG),
      (((spawn_new_cores px py k r).1).map Core.total_blooms).sum = 0 := by
  intro k
  induction k with
  | zero => intro r; rfl
  | succ k ih =>
    intro r
    unfold spawn_new_cores
    simp only [RNG.randint]
    simpa [Core.init] using ih _

/-- Every core produced by `initCoresGo` starts with zero blooms. -/
lemma initCoresGo_total {N : ℕ} :
    ∀ (n : ℕ) (ps : List (ZMod N × ZMod N)) (cs : List (Core N)) (r : RNG),
      (((initCoresGo n ps cs r).1).map Core.total_blooms).sum =
        ((cs.map Core.total_blooms)).sum := by
  intro n
  induction n with
  | zero => intro ps cs r; rfl
  | succ n ih =>
    intro ps cs r
    unfold initCoresGo
    rw [ih]
    simp [Core.init]

/-- The bloom-accounting invariant on the loop accumulator: the running
counter equals the bloom-log length and the sum of per-core counters. -/
def LoopInv {N : ℕ} (acc : LoopAcc N) : Prop :=
  acc.total_blooms = acc.bloom_locations.length ∧
  acc.total_blooms = ((acc.cores.map Core.total_blooms)).sum

/-- The bloom-accounting invariant on a simulation state. -/
def SimInv {N : ℕ} (s : SimState N) : Prop :=
  s.total_blooms = s.bloom_locations.length ∧
  s.total_blooms = ((s.cores.map Core.total_blooms)).sum

/-- Each iteration of the core loop preserves the bloom accounting: a
bloom bumps the simulation counter, the log and exactly one core counter
together, and spawned cores contribute zero. -/
lemma coreLoop_inv {N : ℕ} (cfg : Config) (tick : ℕ)
    (T C : Grid N) (em : Bool) :
    ∀ (fuel idx : ℕ) (acc : LoopAcc N), LoopInv acc →
      LoopInv (coreLoop cfg tick T C em fuel idx acc) := by
  intro fuel
  induction fuel with
  | zero => intro idx acc h; exact h
  | succ fuel ih =>
    intro idx acc h
    unfold coreLoop
    cases hg : acc.cores[idx]? with
    | none => exact h
    | some core =>
      rcases hcu : core.update cfg tick (T core.y core.x) (C core.y core.x) em
        with ⟨core', did⟩
      have htot : core'.total_blooms =
          core.total_blooms + (if did then 1 else 0) := by
        have h0 := Core.update_total cfg core tick
          (T core.y core.x) (C core.y core.x) em
        rw [hcu] at h0
        exact h0
      have hset := sum_map_set Core.total_blooms acc.cores idx core' core hg
      simp only [hcu]
      have h1 := h.1
      have h2 := h.2
      cases did with
      | false =>
        simp only [Bool.false_eq_true, if_false, add_zero] at htot
        rw [htot] at hset
        apply ih
        refine ⟨h1, ?_⟩
        show acc.total_blooms =
          (((acc.cores.set idx core').map Core.total_blooms)).sum
        omega
      | true =>
        simp only [if_true] at htot
        rw [htot] at hset
        have hz :
            (((if 0 < cfg.SPAWN_S then
                spawn_new_cores core.x core.y cfg.SPAWN_S acc.rng
              else ([], acc.rng)).1).map Core.total_blooms).sum = 0 := by
          split
          · exact spawn_new_cores_total core.x core.y cfg.SPAWN_S acc.rng
          · rfl
        apply ih
        refine ⟨?_, ?_⟩ <;> dsimp only
        · simp [h1]
        · rw [List.map_append, List.sum_append, hz]
          omega

/-- C10: the simulation-level `total_blooms` counter equals the length of
`bloom_locations` and the sum of all cores' `total_blooms`; `step()`
preserves this invariant and `reset()` (re)establishes it, so it holds in
every reachable state. -/
theorem C10_bloom_accounting {N : ℕ} [NeZero N] (cfg : Config)
    (s : SimState N) :
    (SimInv s → SimInv (step cfg s).1) ∧ SimInv (reset cfg s) := by
  constructor
  · intro hs
    unfold step
    cases hd : decide ((s.tick + 1) % 2 = 0) <;>
    · simp only [hd, Bool.false_eq_true, if_false, if_true]
      exact coreLoop_inv cfg (s.tick + 1) _ _ _ _ _ _ ⟨hs.1, hs.2⟩
  · refine ⟨rfl, ?_⟩
    show (0 : ℕ) = _
    rw [reset]
    simpa [initialize_cores] using
      (initCoresGo_total cfg.INITIAL_CORES [] [] _).symm

/-- C10 witness: the invariant transfer applied at the concrete
`plainState` (which satisfies the invariant trivially). -/
theorem C10_bloom_accounting_witness :
    SimInv (step defaultConfig plainState).1 ∧
    SimInv (reset defaultConfig plainState) :=
  ⟨(C10_bloom_accounting defaultConfig plainState).1 ⟨rfl, rfl⟩,
   (C10_bloom_accounting defaultConfig plainState).2⟩

/-- Summing a function over all of `ZMod N` is invariant under a constant
index shift (the wrap-around reindexing underlying all the mass
arguments). -/
lemma sum_add_shift {N : ℕ} [NeZero N] (f : ZMod N → ℚ) (c : ZMod N) :
    (∑ x : ZMod N, f (x + c)) = ∑ x : ZMod N, f x :=
  Fintype.sum_equiv (Equiv.addRight c) _ _ (fun _ => rfl)

/-- Shifting both grid indices by constants preserves the grid sum. -/
lemma gridSum_shift {N : ℕ} [NeZero N] (g : Grid N) (a b : ZMod N) :
    (∑ y : ZMod N, ∑ x : ZMod N, g (y + a) (x + b)) = gridSum g :=
  calc (∑ y : ZMod N, ∑ x : ZMod N, g (y + a) (x + b))
      = ∑ y : ZMod N, ∑ x : ZMod N, g (y + a) x :=
        Finset.sum_congr rfl (fun y _ => sum_add_shift (g (y + a)) b)
    _ = ∑ y : ZMod N, ∑ x : ZMod N, g y x :=
        sum_add_shift (fun y => ∑ x : ZMod N, g y x) a

/-- Shifting only the column index preserves the grid sum. -/
lemma gridSum_colShift {N : ℕ} [NeZero N] (g : Grid N) (b : ZMod N) :
    (∑ y : ZMod N, ∑ x : ZMod N, g y (x + b)) = gridSum g :=
  Finset.sum_congr rfl (fun y _ => sum_add_shift (g y) b)

/-- Pulling the two outer sums of a quadruple sum inside. -/
lemma sum_swap24 {α β γ δ : Type} [Fintype α] [Fintype β] [Fintype γ]
    [Fintype δ] (f : α → β → γ → δ → ℚ) :
    (∑ a : α, ∑ b : β, ∑ c : γ, ∑ d : δ, f a b c d) =
      ∑ c : γ, ∑ d : δ, ∑ a : α, ∑ b : β, f a b c d :=
  calc (∑ a : α, ∑ b : β, ∑ c : γ, ∑ d : δ, f a b c d)
      = ∑ a : α, ∑ c : γ, ∑ b : β, ∑ d : δ, f a b c d :=
        Finset.sum_congr rfl (fun _ _ => Finset.sum_comm)
    _ = ∑ c : γ, ∑ a : α, ∑ b : β, ∑ d : δ, f a b c d := Finset.sum_comm
    _ = ∑ c : γ, ∑ a : α, ∑ d : δ, ∑ b : β, f a b c d :=
        Finset.sum_congr rfl (fun _ _ =>
          Finset.sum_congr rfl (fun _ _ => Finset.sum_comm))
    _ = ∑ c : γ, ∑ d : δ, ∑ a : α, ∑ b : β, f a b c d :=
        Finset.sum_congr rfl (fun _ _ => Finset.sum_comm)

/-- Factoring a constant out of a double sum (right factor). -/
lemma sum_sum_mul {N : ℕ} [NeZero N] (F : ZMod N → ZMod N → ℚ) (c : ℚ) :
    (∑ i : ZMod N, ∑ j : ZMod N, F i j * c) =
      (∑ i : ZMod N, ∑ j : ZMod N, F i j) * c := by
  rw [Finset.sum_mul]
  exact Finset.sum_congr rfl (fun i _ => by rw [Finset.sum_mul])

/-- Factoring a constant out of a grid sum (left factor). -/
lemma gridSum_smul {N : ℕ} [NeZero N] (g : Grid N) (c : ℚ) :
    gridSum (fun y x => c * g y x) = c * gridSum g := by
  show (∑ y : ZMod N, ∑ x : ZMod N, c * g y x) = _
  simp only [← Finset.mul_sum]
  rfl

/-- The wrap-around 3×3 convolution scales the total mass by the kernel
weight sum: each input cell meets each kernel weight exactly once. -/
lemma gridSum_conv {N : ℕ} [NeZero N] (g : Grid N)
    (k : Fin 3 → Fin 3 → ℚ) :
    gridSum (apply_convolution g k) = gridSum g * kernelSum k := by
  have key : ∀ (di dj : Fin 3),
      (∑ i : ZMod N, ∑ j : ZMod N,
        g (i + (di.val : ZMod N) - 1) (j + (dj.val : ZMod N) - 1)) =
        gridSum g := by
    intro di dj
    have h := gridSum_shift g ((di.val : ZMod N) - 1) ((dj.val : ZMod N) - 1)
    simpa only [← add_sub_assoc] using h
  calc gridSum (apply_convolution g k)
      = ∑ i : ZMod N, ∑ j : ZMod N, ∑ di : Fin 3, ∑ dj : Fin 3,
          g (i + (di.val : ZMod N) - 1) (j + (dj.val : ZMod N) - 1) *
            k di dj := rfl
    _ = ∑ di : Fin 3, ∑ dj : Fin 3, ∑ i : ZMod N, ∑ j : ZMod N,
          g (i + (di.val : ZMod N) - 1) (j + (dj.val : ZMod N) - 1) *
            k di dj := sum_swap24 _
    _ = ∑ di : Fin 3, ∑ dj : Fin 3, gridSum g * k di dj := by
          refine Finset.sum_congr rfl (fun di _ =>
            Finset.sum_congr rfl (fun dj _ => ?_))
          rw [sum_sum_mul, key di dj]
    _ = gridSum g * kernelSum k := by
          unfold kernelSum
          rw [Finset.mul_sum]
          refine Finset.sum_congr rfl (fun di _ => ?_)
          rw [Finset.mul_sum]

/-- Mass of a pointwise sum of grids. -/
lemma gridSum_addGrid {N : ℕ} [NeZero N] (f g : Grid N) :
    gridSum (fun y x => f y x + g y x) = gridSum f + gridSum g := by
  unfold gridSum
  rw [← Finset.sum_add_distrib]
  exact Finset.sum_congr rfl (fun y _ => Finset.sum_add_distrib)

/-- Mass of a pointwise difference of grids. -/
lemma gridSum_subGrid {N : ℕ} [NeZero N] (f g : Grid N) :
    gridSum (fun y x => f y x - g y x) = gridSum f - gridSum g := by
  unfold gridSum
  rw [← Finset.sum_sub_distrib]
  exact Finset.sum_congr rfl (fun y _ => Finset.sum_sub_distrib)

/-- Rightward advection is a convex blend of the grid with its column
shift and preserves the total mass. -/
lemma gridSum_advect {N : ℕ} [NeZero N] (g : Grid N) (alpha : ℚ) :
    gridSum (advect_right g alpha) = gridSum g := by
  have h2 : gridSum (fun y x => g y (x - 1)) = gridSum g := by
    show (∑ y : ZMod N, ∑ x : ZMod N, g y (x - 1)) = gridSum g
    simp only [sub_eq_add_neg]
    exact gridSum_colShift g (-1)
  calc gridSum (advect_right g alpha)
      = gridSum (fun y x => (1 - alpha) * g y x) +
          gridSum (fun y x => alpha * g y (x - 1)) :=
        gridSum_addGrid (fun y x => (1 - alpha) * g y x)
          (fun y x => alpha * g y (x - 1))
    _ = (1 - alpha) * gridSum g +
          alpha * gridSum (fun y x => g y (x - 1)) := by
        rw [gridSum_smul, gridSum_smul]
    _ = (1 - alpha) * gridSum g + alpha * gridSum g := by rw [h2]
    _ = gridSum g := by ring

/-- The emission transfer only moves mass between the two layers. -/
lemma emission_mass {N : ℕ} [NeZero N] (u l : Grid N) (f : ℚ) :
    gridSum (fun y x => u y x - u y x * f) +
      gridSum (fun y x => l y x + u y x * f) = gridSum u + gridSum l := by
  rw [gridSum_subGrid, gridSum_addGrid]
  ring

/-- The collection transform (lift, normalized convolution, advection,
zeroed lower layer) preserves the combined mass. -/
lemma collection_mass {N : ℕ} [NeZero N] (u l : Grid N)
    (k : Fin 3 → Fin 3 → ℚ) (alpha : ℚ) (hker : kernelSum k = 1) :
    gridSum (advect_right
        (apply_convolution (fun y x => u y x + l y x) k) alpha) +
      gridSum (N := N) (fun _ _ => (0 : ℚ)) = gridSum u + gridSum l := by
  have hz : gridSum (N := N) (fun _ _ => (0 : ℚ)) = 0 := by
    simp [gridSum]
  rw [gridSum_advect, gridSum_conv, hker, mul_one, gridSum_addGrid, hz,
    add_zero]

/-- One `step()` preserves the total catalyst mass whenever the kernel
weights sum to 1: emission moves mass between the layers, and the
collection lift, convolution and advection each preserve it. -/
lemma totalCatalyst_step {N : ℕ} [NeZero N] (cfg : Config)
    (hker : kernelSum cfg.KERNEL_3x3 = 1) (s : SimState N) :
    totalCatalyst (step cfg s).1 = totalCatalyst s := by
  unfold step
  cases hd : decide ((s.tick + 1) % 2 = 0)
  · simp only [hd, Bool.false_eq_true, if_false]
    exact collection_mass s.catalyst_upper s.catalyst_lower cfg.KERNEL_3x3
      cfg.ADVECT_ALPHA hker
  · simp only [hd, if_true]
    exact emission_mass s.catalyst_upper s.catalyst_lower cfg.EMIT_FRACTION

/-- C1: the total catalyst mass `sum(upper) + sum(lower)` is exactly
conserved (over exact rationals) by every sequence of `step()` calls,
whenever the diffusion kernel's weights sum to 1 — as the configured 3×3
kernel's do. -/
theorem C1_conservation {N : ℕ} [NeZero N] (cfg : Config)
    (hker : kernelSum cfg.KERNEL_3x3 = 1) (s : SimState N) (k : ℕ) :
    totalCatalyst (stepIter cfg s k) = totalCatalyst s := by
  induction k generalizing s with
  | zero => rfl
  | succ k ih =>
    show totalCatalyst (stepIter cfg (step cfg s).1 k) = totalCatalyst s
    rw [ih, totalCatalyst_step cfg hker s]

/-- C1 witness: the configured kernel weights sum to 1, and conservation
applied over three steps of the concrete `plainState`. -/
theorem C1_conservation_witness :
    kernelSum defaultConfig.KERNEL_3x3 = 1 ∧
    totalCatalyst (stepIter defaultConfig plainState 3) =
      totalCatalyst plainState :=
  ⟨by with_unfolding_all decide,
   C1_conservation defaultConfig (by with_unfolding_all decide) plainState 3⟩

end KU
